import Mathlib

/-!
Verification development for the read-email-agent backend pipeline.

Shallow embedding of the components under scrutiny:
- `app/services/ai_analysis.py` (ReviewAnalyzer: full and basic analysis)
- `app/services/gmail_client.py` (HTTP error classification)
- `app/tasks/email_tasks.py` (ingestion task for one account)
- `app/tasks/ai_tasks.py` (analysis task)
- `app/services/response_generator.py` (draft generation)
- `app/services/notification_service.py` (channel selection and dispatch)
- `app/services/gmail_oauth.py` (OAuth state-token validation)

LLM calls and external I/O are modelled by explicit oracle values fed to the
embedded functions: `Except String α` stands for "the stage's try-block
produced `α`" versus "the stage's try-block raised an exception with message
`String`", matching the per-stage `try/except` structure of the Python code.
-/

namespace EmailAgent

/-- Sentiment values, `app/models/enums.py` `SentimentType`. -/
inductive Sentiment where
  | positive
  | negative
  | neutral
deriving DecidableEq, Repr

/-- Priority values, `app/models/enums.py` `PriorityType`. -/
inductive Priority where
  | critical
  | important
  | normal
deriving DecidableEq, Repr

/-- Plan types, `app/models/enums.py` `PlanType`. -/
inductive Plan where
  | free
  | starter
  | professional
  | enterprise
deriving DecidableEq, Repr

/-! ## ai_analysis.py : ReviewAnalyzer -/

/-- Validation in `_classify_sentiment`: the `sentiment` string from the parsed
JSON is kept only if it is one of the three valid values, else `neutral`
(`if sentiment not in ["positive", "negative", "neutral"]: sentiment = "neutral"`). -/
def validateSentiment (s : String) : Sentiment :=
  if s = "positive" then .positive
  else if s = "negative" then .negative
  else if s = "neutral" then .neutral
  else .neutral

/-- Validation in `_prioritize`: the `priority` string is kept only if valid,
else `normal`. -/
def validatePriority (s : String) : Priority :=
  if s = "critical" then .critical
  else if s = "important" then .important
  else if s = "normal" then .normal
  else .normal

/-- Outcome of one stage's LLM call + JSON parse, as seen at the point where the
stage's try-block inspects the parsed value. `Except.error msg` is the stage's
`except Exception` branch. For `_classify_sentiment` and `_prioritize` the
payload is the string fetched via `result.get(...)` (the parse-failure default
is already a valid string, so it is just one more possible payload). For
`_decide_response` the payload is `none` when the fetched value was not a
`bool` (the code then forces `True`), `some b` otherwise. -/
structure LlmOracle where
  sentimentResp : Except String String
  problemsResp : Except String (List String)
  suggestionsResp : Except String (List String)
  summaryResp : Except String String
  priorityResp : Except String String
  nameResp : Except String (Option String)
  responseResp : Except String (Option Bool)
deriving Repr

/-- `ReviewAnalyzer._classify_sentiment`: on success validate the string, on
exception return `neutral` (and record the error, which we drop: nothing later
reads `state.error`). -/
def classifySentiment (resp : Except String String) : Sentiment :=
  match resp with
  | .ok s => validateSentiment s
  | .error _ => .neutral

/-- `ReviewAnalyzer._extract_problems`: on success the (already list-checked)
problems, on exception the empty list. -/
def extractProblems (resp : Except String (List String)) : List String :=
  match resp with
  | .ok ps => ps
  | .error _ => []

/-- `ReviewAnalyzer._extract_suggestions`. -/
def extractSuggestions (resp : Except String (List String)) : List String :=
  match resp with
  | .ok ss => ss
  | .error _ => []

/-- Truncation used by `_summarize` and `analyze_basic` for the fallback
summary: `text[:200] + "..." if len(text) > 200 else text`. -/
def truncSummary (text : String) : String :=
  if text.length > 200 then String.mk (text.toList.take 200) ++ "..." else text

/-- `ReviewAnalyzer._summarize`: on success the summary (or, when it is empty,
the truncated cleaned text); on exception the truncated cleaned text. -/
def summarize (cleanedText : String) (resp : Except String String) : String :=
  match resp with
  | .ok s => if s = "" then truncSummary cleanedText else s
  | .error _ => truncSummary cleanedText

/-- `ReviewAnalyzer._prioritize`: on success validate the string, then
auto-escalate `negative`+`normal` to `important`; on exception default to
`important` for negative sentiment and `normal` otherwise. -/
def prioritize (sentiment : Sentiment) (resp : Except String String) : Priority :=
  match resp with
  | .ok s =>
      let p := validatePriority s
      if sentiment = .negative ∧ p = .normal then .important else p
  | .error _ => if sentiment = .negative then .important else .normal

/-- `ReviewAnalyzer._extract_name`: a non-string or out-of-bounds-length name
becomes `none`; on exception `none`. Length cleanup: `len(name) < 2 or
len(name) > 100` drops the name. -/
def extractName (resp : Except String (Option String)) : Option String :=
  match resp with
  | .ok (some n) => if n.length < 2 ∨ n.length > 100 then none else some n
  | .ok none => none
  | .error _ => none

/-- `ReviewAnalyzer._decide_response`: on success a non-bool becomes `True`,
then negative sentiment or critical priority forces `True`; on exception the
default is `state.sentiment == "negative"`. -/
def decideResponse (sentiment : Sentiment) (priority : Priority)
    (resp : Except String (Option Bool)) : Bool :=
  match resp with
  | .ok v =>
      let b := match v with
        | some b => b
        | none => true
      if sentiment = .negative ∨ priority = .critical then true else b
  | .error _ => sentiment = .negative

/-- Final analysis record, `app/schemas/analysis.py` `ReviewAnalysis`. -/
structure ReviewAnalysis where
  sentiment : Sentiment
  priority : Priority
  summary : String
  problems : List String
  suggestions : List String
  customerName : Option String
  requiresResponse : Bool
deriving DecidableEq, Repr

/-- `ReviewAnalyzer.analyze`: the fixed LangGraph sequence
preprocess → classify_sentiment → extract_problems → extract_suggestions →
summarize → prioritize → extract_name → decide_response, each stage's partial
update merged into the state before the next stage reads it. `cleanedText` is
the output of `_preprocess` (pure text normalization, not itself at issue in
the claims, so taken as an input here). -/
def analyze (cleanedText : String) (o : LlmOracle) : ReviewAnalysis :=
  let sentiment := classifySentiment o.sentimentResp
  let problems := extractProblems o.problemsResp
  let suggestions := extractSuggestions o.suggestionsResp
  let summary := summarize cleanedText o.summaryResp
  let priority := prioritize sentiment o.priorityResp
  let customerName := extractName o.nameResp
  let requiresResponse := decideResponse sentiment priority o.responseResp
  { sentiment := sentiment
    priority := priority
    summary := summary
    problems := problems
    suggestions := suggestions
    customerName := customerName
    requiresResponse := requiresResponse }

/-- `ReviewAnalyzer.analyze_basic`: sentiment classification only (exception →
`neutral`), priority derived directly from sentiment, truncated summary, and
`requires_response = (sentiment == "negative")`. -/
def analyzeBasic (cleanedText : String) (sentimentResp : Except String String) :
    ReviewAnalysis :=
  let sentiment := classifySentiment sentimentResp
  { sentiment := sentiment
    priority := if sentiment = .negative then .important else .normal
    summary := truncSummary cleanedText
    problems := []
    suggestions := []
    customerName := none
    requiresResponse := sentiment = .negative }

/-! ## gmail_client.py : error classification -/

/-- The exception raised by `GmailClient._handle_http_error`. The Python class
hierarchy is `GmailClientError` ⊃ {`GmailAuthError`, `GmailTemporaryError` ⊃
`GmailRateLimitError`}; here each raised exception is one constructor. -/
inductive GmailError where
  | authError (msg : String)
  | rateLimitError (msg : String)
  | temporaryError (msg : String)
  | clientError (msg : String)
deriving DecidableEq, Repr

/-- Three-way classification of a raised `GmailError` as the callers see it:
terminal auth error, retryable (`GmailRateLimitError`/`GmailTemporaryError`,
both matched by `autoretry_for=(GmailTemporaryError, GmailRateLimitError)`),
or non-retryable client error. -/
inductive ErrorClass where
  | auth
  | retryable
  | client
deriving DecidableEq, Repr

/-- The class of a raised `GmailError`. `rateLimitError` is a subclass of
`temporaryError` in Python, so both are retryable. -/
def GmailError.classOf : GmailError → ErrorClass
  | .authError _ => .auth
  | .rateLimitError _ => .retryable
  | .temporaryError _ => .retryable
  | .clientError _ => .client

/-- Python's `needle in haystack` substring test. -/
def containsSub (haystack needle : String) : Bool :=
  decide (needle.toList <:+: haystack.toList)

/-- `GmailClient._handle_http_error`: classify a provider HTTP error from its
status code and its `str(error)` text. 401 → auth; 403 → auth when the error
text mentions `accessNotConfigured` or `insufficientPermissions`, otherwise a
plain client error; 429 → rate limit; status ≥ 500 → temporary; everything
else → client error. Always raises (the Python function never returns
normally), so this is a total function into `GmailError`. -/
def handleHttpError (status : Nat) (errorText : String) : GmailError :=
  if status = 401 then
    .authError "OAuth token expired or revoked"
  else if status = 403 then
    if containsSub errorText "accessNotConfigured" then
      .authError "Gmail API not enabled for this project"
    else if containsSub errorText "insufficientPermissions" then
      .authError "Insufficient OAuth permissions"
    else
      .clientError ("Access forbidden: " ++ errorText)
  else if status = 429 then
    .rateLimitError "Gmail API rate limit exceeded"
  else if status ≥ 500 then
    .temporaryError ("Gmail API server error: " ++ errorText)
  else
    .clientError ("Gmail API error: " ++ errorText)

/-! ## email_tasks.py : check_emails_for_account -/

/-- A fetched message summary as used by the ingestion loop
(`GmailMessage`): only the fields the loop reads. -/
structure Msg where
  messageId : String
  senderEmail : String
  senderName : Option String
  subject : String
  receivedAt : Nat
deriving DecidableEq, Repr

/-- A stored `Review` row, restricted to the fields ingestion and analysis
touch. `emailAccountId × messageId` is the natural key (unique constraint). -/
structure ReviewRow where
  emailAccountId : Nat
  messageId : String
  senderEmail : String
  senderName : Option String
  subject : String
  receivedAt : Nat
  isProcessed : Bool
deriving DecidableEq, Repr

/-- The natural key of a Review row: the (account, messageId) pair carrying
the unique constraint. -/
def reviewKey (r : ReviewRow) : Nat × String := (r.emailAccountId, r.messageId)

/-- The duplicate check of the ingestion loop: is there a Review with this
(account, messageId) pair? -/
def hasReview (reviews : List ReviewRow) (accountId : Nat) (messageId : String) : Bool :=
  reviews.any fun r => r.emailAccountId = accountId ∧ r.messageId = messageId

/-- State threaded through the per-message loop of `check_emails_for_account`:
the Review table, the analysis tasks enqueued so far (identified by their
Review's natural key), and the `new_emails` counter. -/
structure IngestState where
  reviews : List ReviewRow
  enqueued : List (Nat × String)
  newEmails : Nat
deriving DecidableEq, Repr

/-- The unprocessed Review row created for a fetched message. -/
def newRow (accountId : Nat) (m : Msg) : ReviewRow :=
  { emailAccountId := accountId
    messageId := m.messageId
    senderEmail := m.senderEmail
    senderName := m.senderName
    subject := m.subject
    receivedAt := m.receivedAt
    isProcessed := false }

/-- One iteration of the per-message loop: look up an existing Review by
(account, messageId); if present skip, else insert an unprocessed Review,
bump `new_emails`, and dispatch `analyze_review.delay` for it. (The session
`flush` makes a row inserted earlier in the same run visible to the duplicate
check of later iterations, which the single evolving `reviews` list models.) -/
def processMessage (accountId : Nat) (st : IngestState) (m : Msg) : IngestState :=
  if hasReview st.reviews accountId m.messageId then st
  else
    { reviews := st.reviews ++ [newRow accountId m]
      enqueued := st.enqueued ++ [(accountId, m.messageId)]
      newEmails := st.newEmails + 1 }

/-- The full per-message loop over one fetched page, in fetch order. -/
def processMessages (accountId : Nat) (st : IngestState) (msgs : List Msg) : IngestState :=
  msgs.foldl (processMessage accountId) st

/-- Account state as touched by the ingestion task. -/
structure AccountState where
  isActive : Bool
  lastCheckedAt : Option Nat
deriving DecidableEq, Repr

/-- Outcome of the `gmail_client.get_messages` call inside the task. -/
inductive FetchOutcome where
  | ok (msgs : List Msg)
  | err (e : GmailError)
deriving Repr

/-- Terminal disposition of one run of the `check_emails_for_account` task. -/
inductive TaskOutcome where
  /-- returned a result dict; `success` is its `"success"` value -/
  | finished (success : Bool)
  /-- raised a `GmailRateLimitError`/`GmailTemporaryError`, which Celery
  retries (`autoretry_for`) -/
  | retryScheduled
  /-- raised a non-retryable exception out of the task -/
  | failed
deriving DecidableEq, Repr

/-- Result of one run of `check_emails_for_account`: the account row after the
run, the Review table and enqueued analyses after the run, and the task
disposition. -/
structure IngestRun where
  account : AccountState
  reviews : List ReviewRow
  enqueued : List (Nat × String)
  newEmails : Nat
  outcome : TaskOutcome
deriving Repr

/-- `check_emails_for_account` for an account that exists, with the fetch
outcome supplied as an oracle. Control flow mirrors the Python task:
inactive account → early return (`success: False`); `GmailAuthError` →
deactivate, commit, return without touching `last_checked_at`;
`GmailRateLimitError`/`GmailTemporaryError` → re-raise for Celery retry;
other fetch exception → re-raised, caught by the outer generic handler which
calls `self.retry` (modelled as a retry-or-fail disposition, without a commit,
so account and reviews are unchanged); success → per-message loop, then
`last_checked_at = now`, commit, return `success: True`. -/
def checkEmailsForAccount (accountId : Nat) (acct : AccountState)
    (reviews : List ReviewRow) (fetch : FetchOutcome) (now : Nat)
    (retriesExhausted : Bool) : IngestRun :=
  if ¬ acct.isActive then
    { account := acct, reviews := reviews, enqueued := [], newEmails := 0
      outcome := .finished false }
  else
    match fetch with
    | .err (.authError _) =>
        { account := { acct with isActive := false }
          reviews := reviews, enqueued := [], newEmails := 0
          outcome := .finished false }
    | .err (.rateLimitError _) =>
        { account := acct, reviews := reviews, enqueued := [], newEmails := 0
          outcome := .retryScheduled }
    | .err (.temporaryError _) =>
        { account := acct, reviews := reviews, enqueued := [], newEmails := 0
          outcome := .retryScheduled }
    | .err (.clientError _) =>
        { account := acct, reviews := reviews, enqueued := [], newEmails := 0
          outcome := if retriesExhausted then .finished false else .retryScheduled }
    | .ok msgs =>
        let st := processMessages accountId
          { reviews := reviews, enqueued := [], newEmails := 0 } msgs
        { account := { acct with lastCheckedAt := some now }
          reviews := st.reviews, enqueued := st.enqueued, newEmails := st.newEmails
          outcome := .finished true }

/-! ## ai_tasks.py : analyze_review -/

/-- The analysis-relevant mutable state of a `Review` row. -/
structure ReviewState where
  isProcessed : Bool
  processedAt : Option Nat
  sentiment : Option Sentiment
  priority : Option Priority
  summary : Option String
  problems : List String
  suggestions : List String
deriving DecidableEq, Repr

/-- Outcome of the AI-analysis step inside `analyze_review` (step 4):
either the analyzer returned a `ReviewAnalysis`, or it raised a `ValueError`
(missing configuration), or it raised some other exception. -/
inductive AiOutcome where
  | ok (a : ReviewAnalysis)
  | configError (msg : String)
  | exn (msg : String)
deriving Repr

/-- Python `str(e)[:200]` on the exception message. -/
def truncErr (e : String) : String := String.mk (e.toList.take 200)

/-- Result of one run of the `analyze_review` task. -/
structure AnalyzeRun where
  review : ReviewState
  accountActive : Bool
  notificationEnqueued : Bool
  draftsEnqueued : Bool
  outcome : TaskOutcome
deriving Repr

/-- `analyze_review` for a review whose account and user exist, with the
Gmail message-detail call and the AI-analysis call supplied as oracles.
Control flow mirrors the Python task:
already-processed review → early `success: True` return (no-op);
`GmailAuthError` from the detail fetch → deactivate the account, return;
other `GmailClientError` from the fetch → `self.retry` (a Celery retry while
attempts remain; once retries are exhausted, `MaxRetriesExceededError`
propagates out of the task — the review is NOT touched on this path);
`ValueError` from the analyzer → return (configuration error, no retry);
any other analyzer exception → `self.retry`, and when retries are exhausted
mark the review processed with summary `"[Analysis failed: " + str(e)[:200] +
"]"`; success → save all analysis fields, mark processed, enqueue
`send_notification` iff sentiment is negative or priority is critical, and
enqueue draft generation iff the plan is not FREE. -/
def analyzeReviewTask (review : ReviewState) (accountActive : Bool) (plan : Plan)
    (fetchDetail : Except GmailError String) (ai : AiOutcome) (now : Nat)
    (retriesExhausted : Bool) : AnalyzeRun :=
  if review.isProcessed then
    { review := review, accountActive := accountActive
      notificationEnqueued := false, draftsEnqueued := false
      outcome := .finished true }
  else
    match fetchDetail with
    | .error (.authError _) =>
        { review := review, accountActive := false
          notificationEnqueued := false, draftsEnqueued := false
          outcome := .finished false }
    | .error _ =>
        { review := review, accountActive := accountActive
          notificationEnqueued := false, draftsEnqueued := false
          outcome := if retriesExhausted then .failed else .retryScheduled }
    | .ok _ =>
        match ai with
        | .configError _ =>
            { review := review, accountActive := accountActive
              notificationEnqueued := false, draftsEnqueued := false
              outcome := .finished false }
        | .exn msg =>
            if retriesExhausted then
              { review := { review with
                  isProcessed := true
                  processedAt := some now
                  summary := some ("[Analysis failed: " ++ truncErr msg ++ "]") }
                accountActive := accountActive
                notificationEnqueued := false, draftsEnqueued := false
                outcome := .finished false }
            else
              { review := review, accountActive := accountActive
                notificationEnqueued := false, draftsEnqueued := false
                outcome := .retryScheduled }
        | .ok a =>
            { review := { review with
                isProcessed := true
                processedAt := some now
                sentiment := some a.sentiment
                priority := some a.priority
                summary := some a.summary
                problems := a.problems
                suggestions := a.suggestions }
              accountActive := accountActive
              notificationEnqueued :=
                a.sentiment = .negative ∨ a.priority = .critical
              draftsEnqueued := plan ≠ .free
              outcome := .finished true }

/-! ## notification_service.py : channel selection and dispatch -/

/-- `NotificationSettings` row, `app/models/notification_settings.py`. -/
structure NotifSettings where
  emailEnabled : Bool
  telegramEnabled : Bool
  telegramChatId : Option String
  smsEnabled : Bool
  phoneNumber : Option String
  notifyOnCritical : Bool
  notifyOnImportant : Bool
  notifyOnNormal : Bool
deriving DecidableEq, Repr

/-- A notification channel name. -/
inductive Channel where
  | email
  | telegram
  | sms
deriving DecidableEq, Repr

/-- `PLAN_CHANNELS` in `notification_service.py`. -/
def planChannels : Plan → List Channel
  | .free => [.email]
  | .starter => [.email, .telegram]
  | .professional => [.email, .telegram, .sms]
  | .enterprise => [.email, .telegram, .sms]

/-- Which channels have their external transport configured
(`channel.is_configured()`), an environment fact. -/
structure ChannelConfig where
  emailConfigured : Bool
  telegramConfigured : Bool
  smsConfigured : Bool
deriving DecidableEq, Repr

/-- `NotificationService.get_available_channels`: `PLAN_CHANNELS.get(plan,
["email"])` — every `PlanType` is a key, so this is `planChannels`. -/
def getAvailableChannels (plan : Plan) : List Channel := planChannels plan

/-- `NotificationService.get_enabled_channels`: with no settings row, email
only (when configured); otherwise intersect plan availability with the
individual enable flags and per-channel configuration (telegram additionally
needs a chat id, sms a phone number). The result keeps the code's
email-telegram-sms order. -/
def getEnabledChannels (plan : Plan) (ns : Option NotifSettings)
    (cfg : ChannelConfig) : List Channel :=
  match ns with
  | none => if cfg.emailConfigured then [.email] else []
  | some s =>
      let available := getAvailableChannels plan
      (if Channel.email ∈ available ∧ s.emailEnabled ∧ cfg.emailConfigured
        then [Channel.email] else []) ++
      (if Channel.telegram ∈ available ∧ s.telegramEnabled ∧
          s.telegramChatId ≠ none ∧ cfg.telegramConfigured
        then [Channel.telegram] else []) ++
      (if Channel.sms ∈ available ∧ s.smsEnabled ∧
          s.phoneNumber ≠ none ∧ cfg.smsConfigured
        then [Channel.sms] else [])

/-- `NotificationService.should_notify`: per-priority notify flags; with no
settings row, notify on critical and important. -/
def shouldNotify (priority : Priority) (ns : Option NotifSettings) : Bool :=
  match ns with
  | none => priority = .critical ∨ priority = .important
  | some s =>
      match priority with
      | .critical => s.notifyOnCritical
      | .important => s.notifyOnImportant
      | .normal => s.notifyOnNormal

/-- The channels `NotificationService.send_review_notification` attempts
delivery on: none when `should_notify` fails, otherwise exactly the enabled
channels (step 4 loops over `channels` and attempts each one, appending a
failure result instead of stopping when a send raises). The review's missing
priority defaults to `normal` (`PriorityType(review.priority) if
review.priority else PriorityType.NORMAL`). -/
def attemptedChannels (reviewPriority : Option Priority) (plan : Plan)
    (ns : Option NotifSettings) (cfg : ChannelConfig) : List Channel :=
  let priority := reviewPriority.getD .normal
  if shouldNotify priority ns then getEnabledChannels plan ns cfg else []

/-! ## response_generator.py : draft generation -/

/-- A draft response as created by `generate_responses`
(`DraftResponseCreate`). -/
structure Draft where
  content : String
  tone : String
  variantNumber : Nat
deriving DecidableEq, Repr

/-- Template key chosen by `_detect_issue_type`. -/
inductive IssueType where
  | deliveryIssue
  | qualityIssue
  | positiveFeedback
  | generalInquiry
deriving DecidableEq, Repr

/-- ASCII and Cyrillic lowercasing, the fragment of Python's `str.lower()`
relevant to the Russian keyword matching in `_detect_issue_type`. -/
def lowerChar (c : Char) : Char :=
  if c.val ≥ 65 ∧ c.val ≤ 90 then Char.ofNat (c.toNat + 32)
  else if c.val ≥ 0x410 ∧ c.val ≤ 0x42F then Char.ofNat (c.toNat + 32)
  else if c.val = 0x401 then Char.ofNat 0x451
  else c

/-- Lowercase a string (ASCII + basic Cyrillic). -/
def lowerStr (s : String) : String := String.mk (s.toList.map lowerChar)

/-- `" ".join(problems)`. -/
def joinSpace : List String → String
  | [] => ""
  | [s] => s
  | s :: rest => s ++ " " ++ joinSpace rest

/-- `ResponseGenerator._detect_issue_type`: positive with no problems →
positive feedback; else match delivery keywords, then quality keywords, in
the lowercased joined problem text; then positive sentiment → positive
feedback; else general inquiry. -/
def detectIssueType (problems : List String) (sentiment : String) : IssueType :=
  if problems = [] ∧ sentiment = "positive" then .positiveFeedback
  else
    let problemsLower := lowerStr (joinSpace problems)
    if ["доставк", "курьер", "задержк", "опоздан"].any
        (fun w => containsSub problemsLower w) then .deliveryIssue
    else if ["качеств", "брак", "дефект", "сломан", "не работа"].any
        (fun w => containsSub problemsLower w) then .qualityIssue
    else if sentiment = "positive" then .positiveFeedback
    else .generalInquiry

/-- `ResponseGenerator._get_template_response`: fill the template for the
issue type with the greeting name and company name. Modelled as an abstract
but injective-in-its-arguments rendering; the claims only compare template
outputs for equality, so the body reproduces the observable structure:
greeting fragment, template key, company fallback. -/
def getTemplateResponse (issue : IssueType) (customerName : Option String)
    (companyName : String) : String :=
  let nameGreeting := match customerName with
    | some n => ", " ++ n
    | none => ""
  let company := if companyName = "" then "Наша команда" else companyName
  let body := match issue with
    | .deliveryIssue => "Приносим извинения за задержку доставки."
    | .qualityIssue => "Сожалеем, что качество товара не оправдало Ваших ожиданий."
    | .positiveFeedback => "Большое спасибо за Ваш тёплый отзыв!"
    | .generalInquiry => "Благодарим Вас за обращение."
  "Здравствуйте" ++ nameGreeting ++ "! " ++ body ++ " С уважением, " ++ company

/-- Outcome of one `_call_llm` + `_parse_json_response` round inside the
variant loop: `none` when the call raised (the loop's `except` branch),
`some s` the parsed response text (possibly empty: `_parse_json_response`
returns a string on every non-raising path, empty when nothing was
extracted). -/
def LlmDrafts := Nat → Option String

/-- The body of one iteration of the variant loop in
`generate_responses`, for variant number `k` (1-based). Inside the `try`:
for `k > 1` the prompt reads `previous_responses[-1]`, which raises
`IndexError` when no previous response was recorded — that exception is
caught by the same `except` and also yields the template fallback. An empty
parsed response falls back to the template inside the `try` (and IS recorded
in `previous_responses`); a raising call falls back in the `except` (and is
NOT recorded). -/
def generateVariant (problems : List String) (sentiment : String)
    (senderName : Option String) (companyName tone : String)
    (llm : LlmDrafts) (k : Nat) (prev : List String) :
    Draft × List String :=
  let templ := getTemplateResponse (detectIssueType problems sentiment)
    senderName companyName
  if k > 1 ∧ prev = [] then
    -- `previous_responses[-1]` raised IndexError → except branch
    ({ content := templ, tone := tone, variantNumber := k }, prev)
  else
    match llm k with
    | none =>
        -- `_call_llm` raised → except branch, nothing recorded
        ({ content := templ, tone := tone, variantNumber := k }, prev)
    | some s =>
        let response := if s = "" then templ else s
        ({ content := response, tone := tone, variantNumber := k },
          prev ++ [response])

/-- The variant loop of `generate_responses` over variant numbers
`1..numVariants` (Python: `for variant_num in range(1, num_variants + 1)`). -/
def generateLoop (problems : List String) (sentiment : String)
    (senderName : Option String) (companyName tone : String)
    (llm : LlmDrafts) : Nat → List Draft × List String
  | 0 => ([], [])
  | n + 1 =>
      let (drafts, prev) := generateLoop problems sentiment senderName
        companyName tone llm n
      let (d, prev') := generateVariant problems sentiment senderName
        companyName tone llm (n + 1) prev
      (drafts ++ [d], prev')

/-- `ResponseGenerator.generate_responses`: the produced draft list. -/
def generateResponses (problems : List String) (sentiment : String)
    (senderName : Option String) (companyName tone : String)
    (llm : LlmDrafts) (numVariants : Nat) : List Draft :=
  (generateLoop problems sentiment senderName companyName tone llm numVariants).1

/-! ## gmail_oauth.py : state-token validation in handle_callback -/

/-- A state-token entry as written by `get_authorization_url`:
`redis.setex("oauth_state:" + state, STATE_TOKEN_TTL, data)` stores the data
with an absolute expiry time. -/
structure StateEntry where
  token : String
  userId : Nat
  expiresAt : Nat
deriving DecidableEq, Repr

/-- Redis `GET` semantics for a TTL'd key at time `now`: an entry exists and
is readable only strictly before its expiry; an expired key behaves exactly
like a key that was never set. -/
def redisGetState (store : List StateEntry) (state : String) (now : Nat) :
    Option Nat :=
  match store.find? (fun e => e.token = state ∧ now < e.expiresAt) with
  | some e => some e.userId
  | none => none

/-- The typed errors `handle_callback` can raise while validating and
consuming the state token; the code raises `ValueError` with a message in
each case. -/
inductive CallbackError where
  /-- `ValueError("Invalid or expired state token")` -/
  | invalidOrExpiredState
  /-- `ValueError("Failed to exchange authorization code: ...")` -/
  | exchangeFailed (msg : String)
deriving DecidableEq, Repr

/-- The state-validation prefix of `GmailOAuthService.handle_callback`: look
up `oauth_state:{state}` in Redis; a missing value (never issued, or issued
but past its TTL) raises `ValueError("Invalid or expired state token")`;
otherwise the stored user id is recovered and the token consumed. -/
def validateCallbackState (store : List StateEntry) (state : String)
    (now : Nat) : Except CallbackError Nat :=
  match redisGetState store state now with
  | none => .error .invalidOrExpiredState
  | some userId => .ok userId

/-! ## Concrete inputs used by counterexamples and witnesses -/

/-- An oracle for one full-analysis run: the sentiment stage returns
`"neutral"`, the priority stage returns `"critical"`, and the
decide-response stage raises. -/
def exOracleCriticalFail : LlmOracle :=
  { sentimentResp := .ok "neutral"
    problemsResp := .ok []
    suggestionsResp := .ok []
    summaryResp := .ok "client threatens legal action"
    priorityResp := .ok "critical"
    nameResp := .ok none
    responseResp := .error "mistral timeout" }

/-- An oracle for a run where every stage succeeds, sentiment negative,
raw priority normal. -/
def exOracleNegativeNormal : LlmOracle :=
  { sentimentResp := .ok "negative"
    problemsResp := .ok ["доставка"]
    suggestionsResp := .ok []
    summaryResp := .ok "late delivery complaint"
    priorityResp := .ok "normal"
    nameResp := .ok none
    responseResp := .ok (some false) }

/-- A fresh, unprocessed review row state. -/
def exFreshReview : ReviewState :=
  { isProcessed := false
    processedAt := none
    sentiment := none
    priority := none
    summary := none
    problems := []
    suggestions := [] }

/-- An active account that has been checked before. -/
def exAccount : AccountState :=
  { isActive := true, lastCheckedAt := some 1000 }

/-- Two fetched messages with distinct ids. -/
def exMsgs : List Msg :=
  [ { messageId := "m1", senderEmail := "a@x.com", senderName := none
      subject := "hello", receivedAt := 10 }
  , { messageId := "m2", senderEmail := "b@x.com", senderName := some "B"
      subject := "bad delivery", receivedAt := 20 } ]

/-- Notification settings with every channel switched on and fully
configured addresses. -/
def exAllOnSettings : NotifSettings :=
  { emailEnabled := true
    telegramEnabled := true
    telegramChatId := some "123"
    smsEnabled := true
    phoneNumber := some "+70000000000"
    notifyOnCritical := true
    notifyOnImportant := true
    notifyOnNormal := true }

/-- All channel transports configured. -/
def exAllConfigured : ChannelConfig :=
  { emailConfigured := true, telegramConfigured := true, smsConfigured := true }

/-- A state-token store holding one token that expires at time 100. -/
def exStateStore : List StateEntry :=
  [{ token := "tok-abc", userId := 7, expiresAt := 100 }]

/-- An LLM oracle for draft generation in which every call raises. -/
def exLlmAllFail : LlmDrafts := fun _ => none

/-! ## Theorems -/

/-- Unfolding of the final analysis record produced by `analyze`. -/
theorem analyze_def (text : String) (o : LlmOracle) :
    analyze text o =
      { sentiment := classifySentiment o.sentimentResp
        priority := prioritize (classifySentiment o.sentimentResp) o.priorityResp
        summary := summarize text o.summaryResp
        problems := extractProblems o.problemsResp
        suggestions := extractSuggestions o.suggestionsResp
        customerName := extractName o.nameResp
        requiresResponse :=
          decideResponse (classifySentiment o.sentimentResp)
            (prioritize (classifySentiment o.sentimentResp) o.priorityResp)
            o.responseResp } := rfl

/-- C1 counterexample run: in a full analysis where the sentiment stage
returns `neutral`, the prioritize stage returns `critical`, and the
decide-response stage raises, the fallback `requires_response =
(sentiment == "negative")` yields `false` despite the critical priority. -/
theorem c1_run_requiresResponse_false :
    (analyze "text" exOracleCriticalFail).priority = .critical ∧
    (analyze "text" exOracleCriticalFail).requiresResponse = false := by
  decide

/-- C1 (amended): requires_response forcing. In a full analysis, whenever the
decide-response stage's try-block completes (any raw output `v`), negative
sentiment or critical priority forces `requires_response = true`; when the
decide-response stage raises, the substituted fallback is exactly
`sentiment == "negative"` (so a critical-priority, non-negative review gets
`false` there); in the basic depth, negative sentiment or critical priority
always implies `requires_response = true`. -/
theorem c1_requires_response_forcing :
    (∀ (text : String) (o : LlmOracle) (v : Option Bool),
      o.responseResp = .ok v →
      ((analyze text o).sentiment = .negative ∨
        (analyze text o).priority = .critical) →
      (analyze text o).requiresResponse = true) ∧
    (∀ (text : String) (o : LlmOracle) (e : String),
      o.responseResp = .error e →
      (analyze text o).requiresResponse =
        decide ((analyze text o).sentiment = .negative)) ∧
    (∀ (text : String) (r : Except String String),
      ((analyzeBasic text r).sentiment = .negative ∨
        (analyzeBasic text r).priority = .critical) →
      (analyzeBasic text r).requiresResponse = true) := by
  refine ⟨?_, ?_, ?_⟩
  · intro text o v hresp hforce
    simp only [analyze_def] at hforce ⊢
    simp only [decideResponse, hresp]
    rw [if_pos hforce]
  · intro text o e hresp
    simp only [analyze_def]
    simp only [decideResponse, hresp]
  · intro text r hforce
    simp only [analyzeBasic] at hforce ⊢
    rcases hforce with h | h
    · simp [h]
    · revert h
      split <;> simp_all

/-- C1 witness: concrete runs discharging each hypothesis of
`c1_requires_response_forcing`. -/
theorem c1_requires_response_forcing_witness :
    (analyze "text" exOracleNegativeNormal).requiresResponse = true ∧
    (analyze "text" exOracleCriticalFail).requiresResponse =
      decide ((analyze "text" exOracleCriticalFail).sentiment = .negative) ∧
    (analyzeBasic "text" (.ok "negative")).requiresResponse = true := by
  refine ⟨?_, ?_, ?_⟩
  · exact c1_requires_response_forcing.1 "text" exOracleNegativeNormal
      (some false) rfl (Or.inl (by decide))
  · exact c1_requires_response_forcing.2.1 "text" exOracleCriticalFail
      "mistral timeout" rfl
  · exact c1_requires_response_forcing.2.2 "text" (.ok "negative")
      (Or.inl (by decide))

/-- C2: priority escalation for negative sentiment. In a full analysis: when
the prioritize stage's raw output validates to `normal` and sentiment is
negative, the final priority is `important`; when the prioritize stage
raises, negative sentiment also yields `important`; and in every full run a
negative review's final priority is never `normal`. In the basic depth a
negative review's priority is always `important`. -/
theorem c2_priority_escalation :
    (∀ (text : String) (o : LlmOracle) (s : String),
      o.priorityResp = .ok s →
      (analyze text o).sentiment = .negative →
      validatePriority s = .normal →
      (analyze text o).priority = .important) ∧
    (∀ (text : String) (o : LlmOracle) (e : String),
      o.priorityResp = .error e →
      (analyze text o).sentiment = .negative →
      (analyze text o).priority = .important) ∧
    (∀ (text : String) (o : LlmOracle),
      (analyze text o).sentiment = .negative →
      (analyze text o).priority ≠ .normal) ∧
    (∀ (text : String) (r : Except String String),
      (analyzeBasic text r).sentiment = .negative →
      (analyzeBasic text r).priority = .important) := by
  refine ⟨?_, ?_, ?_, ?_⟩
  · intro text o s hp hneg hnorm
    simp only [analyze_def] at hneg ⊢
    simp [prioritize, hp, hneg, hnorm]
  · intro text o e hp hneg
    simp only [analyze_def] at hneg ⊢
    simp [prioritize, hp, hneg]
  · intro text o hneg
    simp only [analyze_def] at hneg ⊢
    rcases hr : o.priorityResp with e | s
    · simp [prioritize, hr, hneg]
    · simp only [prioritize, hr, hneg]
      rcases hv : validatePriority s <;> simp
  · intro text r hneg
    simp only [analyzeBasic] at hneg ⊢
    simp [hneg]

/-- C2 witness: concrete runs discharging each hypothesis of
`c2_priority_escalation`: full run with negative sentiment and raw priority
`normal`, full run with a raising prioritize stage, and a basic run. -/
theorem c2_priority_escalation_witness :
    (analyze "text" exOracleNegativeNormal).priority = .important ∧
    (analyze "text"
        { exOracleNegativeNormal with priorityResp := .error "down" }).priority
      = .important ∧
    (analyze "text" exOracleNegativeNormal).priority ≠ .normal ∧
    (analyzeBasic "text" (.ok "negative")).priority = .important := by
  refine ⟨?_, ?_, ?_, ?_⟩
  · exact c2_priority_escalation.1 "text" exOracleNegativeNormal "normal"
      rfl (by decide) (by decide)
  · exact c2_priority_escalation.2.1 "text"
      { exOracleNegativeNormal with priorityResp := .error "down" } "down"
      rfl (by decide)
  · exact c2_priority_escalation.2.2.1 "text" exOracleNegativeNormal (by decide)
  · exact c2_priority_escalation.2.2.2 "text" (.ok "negative") (by decide)

/-- The duplicate check succeeds exactly when the (account, messageId) key is
among the stored keys. -/
theorem hasReview_iff_mem (rs : List ReviewRow) (a : Nat) (mid : String) :
    hasReview rs a mid = true ↔ (a, mid) ∈ rs.map reviewKey := by
  simp only [hasReview, List.any_eq_true, decide_eq_true_eq, List.mem_map,
    reviewKey, Prod.ext_iff]

/-- Structure of one ingestion loop run: it only appends rows, appends their
keys to the enqueued analyses in lockstep, counts them in `new_emails`, and
every appended row is an unprocessed row of this account whose key was not
yet present when it was inserted. -/
theorem processMessages_structure (a : Nat) (msgs : List Msg) :
    ∀ st : IngestState, ∃ new : List ReviewRow,
      (processMessages a st msgs).reviews = st.reviews ++ new ∧
      (processMessages a st msgs).enqueued = st.enqueued ++ new.map reviewKey ∧
      (processMessages a st msgs).newEmails = st.newEmails + new.length ∧
      (∀ r ∈ new, r.isProcessed = false ∧ r.emailAccountId = a) := by
  induction msgs with
  | nil =>
      intro st
      exact ⟨[], by simp [processMessages], by simp [processMessages],
        by simp [processMessages], by simp⟩
  | cons m ms ih =>
      intro st
      rw [show processMessages a st (m :: ms)
            = processMessages a (processMessage a st m) ms from rfl]
      by_cases h : hasReview st.reviews a m.messageId = true
      · rw [show processMessage a st m = st from by simp [processMessage, h]]
        exact ih st
      · rw [show processMessage a st m =
              { reviews := st.reviews ++ [newRow a m]
                enqueued := st.enqueued ++ [(a, m.messageId)]
                newEmails := st.newEmails + 1 } from by simp [processMessage, h]]
        obtain ⟨new, h1, h2, h3, h4⟩ := ih
          { reviews := st.reviews ++ [newRow a m]
            enqueued := st.enqueued ++ [(a, m.messageId)]
            newEmails := st.newEmails + 1 }
        refine ⟨newRow a m :: new, ?_, ?_, ?_, ?_⟩
        · rw [h1]; simp [List.append_assoc]
        · rw [h2]; simp [List.append_assoc, reviewKey, newRow]
        · rw [h3]; simp only [List.length_cons]; omega
        · intro r hr
          rcases List.mem_cons.mp hr with hr | hr
          · subst hr; exact ⟨rfl, rfl⟩
          · exact h4 r hr

/-- Keys already stored stay stored across the ingestion loop. -/
theorem mem_keys_processMessages (a : Nat) (st : IngestState) (msgs : List Msg)
    (p : Nat × String) (hp : p ∈ st.reviews.map reviewKey) :
    p ∈ (processMessages a st msgs).reviews.map reviewKey := by
  obtain ⟨new, h1, -, -, -⟩ := processMessages_structure a msgs st
  rw [h1, List.map_append]
  exact List.mem_append_left _ hp

/-- After the ingestion loop, every fetched message's key is stored. -/
theorem msg_key_mem_processMessages (a : Nat) (msgs : List Msg) :
    ∀ st : IngestState, ∀ m ∈ msgs,
      (a, m.messageId) ∈ (processMessages a st msgs).reviews.map reviewKey := by
  induction msgs with
  | nil => intro st m hm; cases hm
  | cons m0 ms ih =>
      intro st m hm
      rw [show processMessages a st (m0 :: ms)
            = processMessages a (processMessage a st m0) ms from rfl]
      rcases List.mem_cons.mp hm with hm | hm
      · -- the head message's key is stored by `processMessage` (or was there)
        subst hm
        apply mem_keys_processMessages
        by_cases h : hasReview st.reviews a m.messageId = true
        · rw [show processMessage a st m = st from by simp [processMessage, h]]
          exact (hasReview_iff_mem _ _ _).mp h
        · simp only [processMessage, h, if_false, Bool.false_eq_true,
            List.map_append]
          refine List.mem_append_right _ ?_
          simp [reviewKey, newRow]
      · exact ih (processMessage a st m0) m hm

/-- When every fetched message's key is already stored, the ingestion loop is
the identity: it creates no row, enqueues nothing, counts nothing. -/
theorem processMessages_noop (a : Nat) (msgs : List Msg) :
    ∀ st : IngestState,
      (∀ m ∈ msgs, hasReview st.reviews a m.messageId = true) →
      processMessages a st msgs = st := by
  induction msgs with
  | nil => intro st _; rfl
  | cons m ms ih =>
      intro st h
      rw [show processMessages a st (m :: ms)
            = processMessages a (processMessage a st m) ms from rfl]
      rw [show processMessage a st m = st from by
        simp [processMessage, h m (List.mem_cons_self m ms)]]
      exact ih st fun m' hm' => h m' (List.mem_cons_of_mem m hm')

/-- The ingestion loop never stores the same (account, messageId) key twice:
key-uniqueness of the Review table is preserved. -/
theorem processMessages_nodup (a : Nat) (msgs : List Msg) :
    ∀ st : IngestState, (st.reviews.map reviewKey).Nodup →
      ((processMessages a st msgs).reviews.map reviewKey).Nodup := by
  induction msgs with
  | nil => intro st h; exact h
  | cons m ms ih =>
      intro st h
      rw [show processMessages a st (m :: ms)
            = processMessages a (processMessage a st m) ms from rfl]
      apply ih
      by_cases hm : hasReview st.reviews a m.messageId = true
      · rw [show processMessage a st m = st from by simp [processMessage, hm]]
        exact h
      · have hnot : (a, m.messageId) ∉ st.reviews.map reviewKey := by
          intro hc
          exact hm ((hasReview_iff_mem _ _ _).mpr hc)
        simp only [processMessage, hm, if_false, Bool.false_eq_true,
          List.map_append]
        rw [List.nodup_append]
        refine ⟨h, List.nodup_singleton _, ?_⟩
        intro p hp hp'
        simp only [List.map_cons, List.map_nil, List.mem_singleton, reviewKey]
          at hp'
        subst hp'
        exact hnot hp

/-- In a duplicate-free list, a present element is counted exactly once
(stated over any lawful `BEq` so it applies at the instance the claim
statements elaborate to). -/
theorem count_eq_one_of_mem_nodup {α : Type} [BEq α] [LawfulBEq α] {a : α}
    {l : List α} (d : l.Nodup) (h : a ∈ l) : l.count a = 1 := by
  induction l with
  | nil => cases h
  | cons b l ih =>
      rw [List.count_cons]
      rcases List.mem_cons.mp h with rfl | h'
      · have h0 : l.count a = 0 :=
          List.count_eq_zero.mpr (List.nodup_cons.mp d).1
        simp [h0]
      · have hne : a ≠ b := by
          rintro rfl
          exact (List.nodup_cons.mp d).1 h'
        have h1 : l.count a = 1 := ih (List.nodup_cons.mp d).2 h'
        have hne' : ¬ b = a := fun hba => hne hba.symm
        simp [h1, hne, hne']

/-- Unfolding of a successful-fetch ingestion run for an active account. -/
theorem checkEmails_ok_run (aid : Nat) (acct : AccountState)
    (rs : List ReviewRow) (msgs : List Msg) (now : Nat) (rex : Bool)
    (h : acct.isActive = true) :
    checkEmailsForAccount aid acct rs (.ok msgs) now rex =
      { account := { acct with lastCheckedAt := some now }
        reviews := (processMessages aid ⟨rs, [], 0⟩ msgs).reviews
        enqueued := (processMessages aid ⟨rs, [], 0⟩ msgs).enqueued
        newEmails := (processMessages aid ⟨rs, [], 0⟩ msgs).newEmails
        outcome := .finished true } := by
  simp [checkEmailsForAccount, h]

/-- C3: ingestion is idempotent with respect to duplicates. For an active
account and a key-unique Review table, one ingestion run over a fetched page:
keeps the keys unique (zero duplicate rows); stores each fetched message's
key, exactly once; leaves the pre-existing rows in place; every row whose key
was not present before is created unprocessed; the enqueued analysis
invocations are exactly one per newly created Review, in order; and an
immediate re-run over the same page creates zero additional Reviews and
enqueues nothing. -/
theorem c3_ingestion_idempotent :
    ∀ (aid : Nat) (acct : AccountState) (rs : List ReviewRow) (msgs : List Msg)
      (now now2 : Nat) (rex rex2 : Bool) (run : IngestRun),
      acct.isActive = true →
      (rs.map reviewKey).Nodup →
      run = checkEmailsForAccount aid acct rs (.ok msgs) now rex →
      (run.reviews.map reviewKey).Nodup ∧
      (∀ m ∈ msgs, (run.reviews.map reviewKey).count (aid, m.messageId) = 1) ∧
      run.reviews.take rs.length = rs ∧
      (∀ r ∈ run.reviews, reviewKey r ∉ rs.map reviewKey →
        r.isProcessed = false) ∧
      run.enqueued = (run.reviews.drop rs.length).map reviewKey ∧
      (∀ run2 : IngestRun,
        run2 = checkEmailsForAccount aid run.account run.reviews (.ok msgs)
          now2 rex2 →
        run2.reviews = run.reviews ∧ run2.enqueued = [] ∧ run2.newEmails = 0) := by
  intro aid acct rs msgs now now2 rex rex2 run hact hnd hrun
  rw [checkEmails_ok_run aid acct rs msgs now rex hact] at hrun
  obtain ⟨new, h1, h2, h3, h4⟩ :=
    processMessages_structure aid msgs ⟨rs, [], 0⟩
  have hrevs : run.reviews = rs ++ new := by rw [hrun]; exact h1
  have henq : run.enqueued = new.map reviewKey := by rw [hrun]; simpa using h2
  have hnodup : (run.reviews.map reviewKey).Nodup := by
    rw [hrun]
    exact processMessages_nodup aid msgs ⟨rs, [], 0⟩ (by simpa using hnd)
  have hmem : ∀ m ∈ msgs, (aid, m.messageId) ∈ run.reviews.map reviewKey := by
    intro m hm
    rw [hrun]
    exact msg_key_mem_processMessages aid msgs ⟨rs, [], 0⟩ m hm
  refine ⟨hnodup, ?_, ?_, ?_, ?_, ?_⟩
  · intro m hm
    exact count_eq_one_of_mem_nodup hnodup (hmem m hm)
  · rw [hrevs]
    exact List.take_left rs new
  · intro r hr hkey
    rw [hrevs] at hr
    rcases List.mem_append.mp hr with hr | hr
    · exact absurd (List.mem_map_of_mem reviewKey hr) hkey
    · exact (h4 r hr).1
  · rw [henq, hrevs, List.drop_left]
  · intro run2 hrun2
    have hact2 : run.account.isActive = true := by rw [hrun]; exact hact
    rw [checkEmails_ok_run aid run.account run.reviews msgs now2 rex2 hact2]
      at hrun2
    have hnp : processMessages aid ⟨run.reviews, [], 0⟩ msgs
        = ⟨run.reviews, [], 0⟩ := by
      apply processMessages_noop
      intro m hm
      exact (hasReview_iff_mem _ _ _).mpr (hmem m hm)
    rw [hrun2, hnp]
    exact ⟨rfl, rfl, rfl⟩

/-- C3 witness: a concrete run over two fresh messages on an empty Review
table, each hypothesis of `c3_ingestion_idempotent` discharged at the
concrete input (the key facts evaluated: two unique keys stored, original
empty prefix kept, both enqueued, and the immediate re-run is a no-op). -/
theorem c3_ingestion_idempotent_witness :
    ((checkEmailsForAccount 1 exAccount [] (.ok exMsgs) 2000 false).reviews.map
        reviewKey).Nodup ∧
    (checkEmailsForAccount 1
        (checkEmailsForAccount 1 exAccount [] (.ok exMsgs) 2000 false).account
        (checkEmailsForAccount 1 exAccount [] (.ok exMsgs) 2000 false).reviews
        (.ok exMsgs) 3000 false).reviews =
      (checkEmailsForAccount 1 exAccount [] (.ok exMsgs) 2000 false).reviews := by
  have h := c3_ingestion_idempotent 1 exAccount [] exMsgs 2000 3000 false false
    (checkEmailsForAccount 1 exAccount [] (.ok exMsgs) 2000 false)
    (by decide) (by decide) rfl
  exact ⟨h.1, (h.2.2.2.2.2 _ rfl).1⟩

/-- C4: an authentication error from the Mailbox Client during ingestion
deactivates the account, leaves the last-checked checkpoint unchanged,
creates no Review, enqueues nothing, and ends the task with a terminal
result (a returned dict, not a Celery retry). -/
theorem c4_auth_error_deactivates :
    ∀ (aid : Nat) (acct : AccountState) (rs : List ReviewRow) (e : String)
      (now : Nat) (rex : Bool) (run : IngestRun),
      acct.isActive = true →
      run = checkEmailsForAccount aid acct rs (.err (.authError e)) now rex →
      run.account.isActive = false ∧
      run.account.lastCheckedAt = acct.lastCheckedAt ∧
      run.reviews = rs ∧
      run.enqueued = [] ∧
      run.outcome = .finished false := by
  intro aid acct rs e now rex run hact hrun
  rw [hrun]
  simp [checkEmailsForAccount, hact]

/-- C4 witness: the concrete 401 run on an active account. -/
theorem c4_auth_error_deactivates_witness :
    (checkEmailsForAccount 1 exAccount [] (.err (handleHttpError 401 "")) 2000
        false).account.isActive = false ∧
    (checkEmailsForAccount 1 exAccount [] (.err (handleHttpError 401 "")) 2000
        false).account.lastCheckedAt = exAccount.lastCheckedAt ∧
    (checkEmailsForAccount 1 exAccount [] (.err (handleHttpError 401 "")) 2000
        false).outcome = .finished false := by
  have h := c4_auth_error_deactivates 1 exAccount []
    "OAuth token expired or revoked" 2000 false
    (checkEmailsForAccount 1 exAccount [] (.err (handleHttpError 401 "")) 2000
      false) (by decide) (by rfl)
  exact ⟨h.1, h.2.1, h.2.2.2.2⟩

/-- C5 counterexample: the error class is not a function of the HTTP status
alone. Two provider errors with the same status 403 — one whose body marks
`accessNotConfigured`, one a plain quota denial — are classified as an
authentication error and as a non-retryable client error respectively, so
"auth for token statuses, client for every other status" fails at 403
whichever way 403 is read. -/
theorem c5_status_alone_not_classifier :
    (handleHttpError 403 "accessNotConfigured for project").classOf
        = .auth ∧
    (handleHttpError 403 "dailyLimitExceeded").classOf = .client ∧
    (403 : Nat) ≠ 401 ∧ (403 : Nat) ≠ 429 ∧ ¬ (403 : Nat) ≥ 500 := by
  refine ⟨by decide, by decide, by decide, by decide, by decide⟩

/-- C5 (amended): every provider HTTP error is classified, and into exactly
one of the three disjoint classes; 429 and 5xx statuses are exactly the
retryable ones; the authentication class is produced exactly by status 401
and by status 403 whose error text marks `accessNotConfigured` or
`insufficientPermissions`; every other (status, text) pair yields the
non-retryable client error. -/
theorem c5_error_classification :
    ∀ (status : Nat) (errText : String),
      ((handleHttpError status errText).classOf = .auth ∨
        (handleHttpError status errText).classOf = .retryable ∨
        (handleHttpError status errText).classOf = .client) ∧
      ((handleHttpError status errText).classOf = .auth ↔
        (status = 401 ∨ (status = 403 ∧
          (containsSub errText "accessNotConfigured" = true ∨
            containsSub errText "insufficientPermissions" = true)))) ∧
      ((handleHttpError status errText).classOf = .retryable ↔
        (status = 429 ∨ status ≥ 500)) ∧
      ((handleHttpError status errText).classOf = .client ↔
        (¬ (status = 401 ∨ (status = 403 ∧
            (containsSub errText "accessNotConfigured" = true ∨
              containsSub errText "insufficientPermissions" = true))) ∧
          ¬ (status = 429 ∨ status ≥ 500))) := by
  intro status errText
  unfold handleHttpError
  split_ifs with h1 h2 h3 h4 h5 h6 <;>
    simp_all [GmailError.classOf]

/-- When the LLM call for variant `k` raises, the loop body yields the
template draft for this review and records nothing. -/
theorem generateVariant_of_none (problems : List String) (sentiment : String)
    (senderName : Option String) (companyName tone : String) (llm : LlmDrafts)
    (k : Nat) (prev : List String) (h : llm k = none) :
    generateVariant problems sentiment senderName companyName tone llm k prev
      = ({ content := getTemplateResponse (detectIssueType problems sentiment)
             senderName companyName
           tone := tone, variantNumber := k }, prev) := by
  unfold generateVariant
  split
  · rfl
  · rw [h]

/-- One unfolding step of the variant loop. -/
theorem generateLoop_succ (problems : List String) (sentiment : String)
    (senderName : Option String) (companyName tone : String) (llm : LlmDrafts)
    (n : Nat) :
    generateLoop problems sentiment senderName companyName tone llm (n + 1)
      = ((generateLoop problems sentiment senderName companyName tone
            llm n).1 ++
          [(generateVariant problems sentiment senderName companyName tone llm
            (n + 1)
            (generateLoop problems sentiment senderName companyName tone
              llm n).2).1],
         (generateVariant problems sentiment senderName companyName tone llm
            (n + 1)
            (generateLoop problems sentiment senderName companyName tone
              llm n).2).2) := rfl

/-- The variant loop produces one draft per iteration. -/
theorem generateLoop_length (problems : List String) (sentiment : String)
    (senderName : Option String) (companyName tone : String) (llm : LlmDrafts) :
    ∀ n, (generateLoop problems sentiment senderName companyName tone
      llm n).1.length = n := by
  intro n
  induction n with
  | zero => rfl
  | succ n ih =>
      unfold generateLoop
      simp [ih]

/-- The variant loop numbers its drafts 1..n in order. -/
theorem generateLoop_variants (problems : List String) (sentiment : String)
    (senderName : Option String) (companyName tone : String) (llm : LlmDrafts) :
    ∀ n, (generateLoop problems sentiment senderName companyName tone
        llm n).1.map (fun d => d.variantNumber) = List.range' 1 n := by
  intro n
  induction n with
  | zero => rfl
  | succ n ih =>
      unfold generateLoop
      rcases hv : generateVariant problems sentiment senderName companyName
        tone llm (n + 1) (generateLoop problems sentiment senderName
          companyName tone llm n).2 with ⟨d, prev'⟩
      have hnum : d.variantNumber = n + 1 := by
        unfold generateVariant at hv
        split at hv
        · cases hv; rfl
        · split at hv
          · cases hv; rfl
          · cases hv; rfl
      have hr : List.range' 1 n ++ [n + 1] = List.range' 1 (n + 1) := by
        have := List.range'_append_1 1 n 1
        simpa [Nat.add_comm] using this
      simp only [hv, List.map_append, ih, List.map_cons, List.map_nil, hnum]
      exact hr

/-- When every LLM call raises, every produced draft is the rule-based
template chosen by the issue-type classifier over the problem list. -/
theorem generateLoop_all_template (problems : List String) (sentiment : String)
    (senderName : Option String) (companyName tone : String) (llm : LlmDrafts)
    (hfail : ∀ k, llm k = none) :
    ∀ n, ∀ d ∈ (generateLoop problems sentiment senderName companyName tone
        llm n).1,
      d.content = getTemplateResponse (detectIssueType problems sentiment)
        senderName companyName := by
  intro n
  induction n with
  | zero => intro d hd; cases hd
  | succ n ih =>
      intro d hd
      rw [generateLoop_succ, generateVariant_of_none problems sentiment
        senderName companyName tone llm (n + 1) _ (hfail (n + 1))] at hd
      simp only [List.mem_append, List.mem_singleton] at hd
      rcases hd with hd | hd
      · exact ih d hd
      · rw [hd]

/-- C6: the draft generator always returns exactly `n` drafts numbered
`1..n`, and when every underlying LLM generation call raises, every draft is
the rule-based template chosen by the issue-type classifier over the
review's problem list. -/
theorem c6_draft_count :
    ∀ (problems : List String) (sentiment : String) (senderName : Option String)
      (companyName tone : String) (llm : LlmDrafts) (n : Nat),
      1 ≤ n →
      (generateResponses problems sentiment senderName companyName tone
        llm n).length = n ∧
      (generateResponses problems sentiment senderName companyName tone
        llm n).map (fun d => d.variantNumber) = List.range' 1 n ∧
      ((∀ k, llm k = none) →
        ∀ d ∈ generateResponses problems sentiment senderName companyName tone
          llm n,
          d.content = getTemplateResponse (detectIssueType problems sentiment)
            senderName companyName) := by
  intro problems sentiment senderName companyName tone llm n _
  refine ⟨generateLoop_length problems sentiment senderName companyName tone
      llm n,
    generateLoop_variants problems sentiment senderName companyName tone
      llm n,
    fun hfail => generateLoop_all_template problems sentiment senderName
      companyName tone llm hfail n⟩

/-- C6 witness: three variants requested while every LLM call raises —
exactly 3 drafts numbered 1, 2, 3 come back. -/
theorem c6_draft_count_witness :
    (generateResponses ["брак"] "negative" none "Co" "professional"
      exLlmAllFail 3).length = 3 ∧
    (generateResponses ["брак"] "negative" none "Co" "professional"
        exLlmAllFail 3).map (fun d => d.variantNumber) = List.range' 1 3 := by
  have h := c6_draft_count ["брак"] "negative" none "Co" "professional"
    exLlmAllFail 3 (by decide)
  exact ⟨h.1, h.2.1⟩

/-- C7 counterexample: a fresh review whose message-detail fetch keeps
raising a non-auth Gmail client error until the bounded retries are
exhausted. The task run fails permanently (`MaxRetriesExceededError`
propagates) and the Review is left unprocessed, with no failure summary —
contradicting "the Review is nevertheless marked processed". -/
theorem c7_fetch_exhaustion_leaves_unprocessed :
    ((analyzeReviewTask exFreshReview true .starter
        (.error (.clientError "Gmail API error: backend glitch")) (.exn "x")
        5000 true).review.isProcessed = false) ∧
    ((analyzeReviewTask exFreshReview true .starter
        (.error (.clientError "Gmail API error: backend glitch")) (.exn "x")
        5000 true).review.summary = none) ∧
    ((analyzeReviewTask exFreshReview true .starter
        (.error (.clientError "Gmail API error: backend glitch")) (.exn "x")
        5000 true).outcome = .failed) := by
  decide

/-- C7 (amended): when the AI-analysis stage itself raises (not a
configuration `ValueError`) and the bounded retries are exhausted, the
Review IS marked processed with a processed timestamp and its summary set to
the bounded failure note `"[Analysis failed: " + str(e)[:200] + "]"` (at most
219 characters); but the guarantee covers only that stage — retry exhaustion
in the message-fetch step leaves the Review unprocessed (see the
counterexample). -/
theorem c7_ai_failure_marks_processed :
    ∀ (review : ReviewState) (active : Bool) (plan : Plan) (body msg : String)
      (now : Nat) (run : AnalyzeRun),
      review.isProcessed = false →
      run = analyzeReviewTask review active plan (.ok body) (.exn msg)
        now true →
      run.review.isProcessed = true ∧
      run.review.processedAt = some now ∧
      run.review.summary =
        some ("[Analysis failed: " ++ truncErr msg ++ "]") ∧
      (∀ s, run.review.summary = some s → s.length ≤ 219) ∧
      run.outcome = .finished false := by
  intro review active plan body msg now run hproc hrun
  have hred : run =
      { review := { review with
          isProcessed := true
          processedAt := some now
          summary := some ("[Analysis failed: " ++ truncErr msg ++ "]") }
        accountActive := active
        notificationEnqueued := false
        draftsEnqueued := false
        outcome := .finished false } := by
    rw [hrun]
    simp [analyzeReviewTask, hproc]
  subst hred
  refine ⟨rfl, rfl, rfl, ?_, rfl⟩
  intro s hs
  have hseq : "[Analysis failed: " ++ truncErr msg ++ "]" = s :=
    Option.some.inj hs
  subst hseq
  have hlen : (truncErr msg).length ≤ 200 := by
    simp only [truncErr]
    calc (String.mk (msg.toList.take 200)).length
        = (msg.toList.take 200).length := rfl
      _ ≤ 200 := by
          rw [List.length_take]
          omega
  simp only [String.length_append]
  have h18 : ("[Analysis failed: " : String).length = 18 := by decide
  have h1 : ("]" : String).length = 1 := by decide
  omega

/-- C7 witness: a concrete AI-stage failure with retries exhausted marks the
review processed with the failure note. -/
theorem c7_ai_failure_marks_processed_witness :
    (analyzeReviewTask exFreshReview true .free (.ok "body")
        (.exn "mistral 500") 5000 true).review.isProcessed = true ∧
    (analyzeReviewTask exFreshReview true .free (.ok "body")
        (.exn "mistral 500") 5000 true).review.summary =
      some ("[Analysis failed: " ++ truncErr "mistral 500" ++ "]") := by
  have h := c7_ai_failure_marks_processed exFreshReview true .free "body"
    "mistral 500" 5000
    (analyzeReviewTask exFreshReview true .free (.ok "body")
      (.exn "mistral 500") 5000 true) (by decide) rfl
  exact ⟨h.1, h.2.2.1⟩

/-- C8: entitlement gating of notification channels. A free-plan subscriber
never gets a delivery attempt on telegram or sms, whatever their individual
settings and however the channels are configured; a professional-plan
subscriber with sms enabled, a phone number stored, the sms transport
configured, and the review's priority enabled, gets an sms delivery
attempt. -/
theorem c8_entitlement_gating :
    (∀ (rp : Option Priority) (ns : Option NotifSettings) (cfg : ChannelConfig),
      Channel.telegram ∉ attemptedChannels rp .free ns cfg ∧
      Channel.sms ∉ attemptedChannels rp .free ns cfg) ∧
    (∀ (rp : Option Priority) (s : NotifSettings) (cfg : ChannelConfig),
      s.smsEnabled = true →
      s.phoneNumber ≠ none →
      cfg.smsConfigured = true →
      shouldNotify (rp.getD .normal) (some s) = true →
      Channel.sms ∈ attemptedChannels rp .professional (some s) cfg) := by
  have hfree : ∀ (ns : Option NotifSettings) (cfg : ChannelConfig),
      Channel.telegram ∉ getEnabledChannels .free ns cfg ∧
      Channel.sms ∉ getEnabledChannels .free ns cfg := by
    intro ns cfg
    cases ns with
    | none =>
        simp only [getEnabledChannels]
        split <;> simp
    | some s =>
        simp only [getEnabledChannels, getAvailableChannels, planChannels]
        constructor <;>
          · intro hmem
            simp only [List.mem_append] at hmem
            rcases hmem with (h | h) | h <;>
              · split at h <;> simp_all
  constructor
  · intro rp ns cfg
    have hsp : attemptedChannels rp .free ns cfg = getEnabledChannels .free ns cfg
        ∨ attemptedChannels rp .free ns cfg = [] := by
      by_cases h : shouldNotify (rp.getD .normal) ns = true
      · exact Or.inl (by simp [attemptedChannels, h])
      · exact Or.inr (by simp [attemptedChannels, h])
    rcases hsp with hsp | hsp <;> rw [hsp]
    · exact hfree ns cfg
    · simp
  · intro rp s cfg hsms hphone hcfg hnotify
    unfold attemptedChannels
    rw [if_pos hnotify]
    simp only [getEnabledChannels, getAvailableChannels, planChannels]
    refine List.mem_append_right _ ?_
    rw [if_pos]
    · exact List.mem_singleton.mpr rfl
    · exact ⟨by simp, hsms, hphone, hcfg⟩

/-- C8 witness: every-channel-enabled settings on a free plan attempt
neither telegram nor sms; the same settings on a professional plan attempt
sms (critical review). -/
theorem c8_entitlement_gating_witness :
    Channel.sms ∉ attemptedChannels (some .critical) .free
      (some exAllOnSettings) exAllConfigured ∧
    Channel.sms ∈ attemptedChannels (some .critical) .professional
      (some exAllOnSettings) exAllConfigured := by
  refine ⟨(c8_entitlement_gating.1 (some .critical) (some exAllOnSettings)
    exAllConfigured).2, ?_⟩
  exact c8_entitlement_gating.2 (some .critical) exAllOnSettings
    exAllConfigured (by decide) (by decide) (by decide) (by decide)

/-- C9 counterexample: an expired state token and a never-issued state token
fail `handle_callback` with the SAME typed error,
`ValueError("Invalid or expired state token")` — the two cases are not
distinguished. (`exStateStore` holds token `"tok-abc"` expiring at time 100:
at time 50 it authorizes, at time 100 it is expired; `"tok-never"` was never
issued.) -/
theorem c9_state_errors_indistinguishable :
    validateCallbackState exStateStore "tok-abc" 50 = .ok 7 ∧
    validateCallbackState exStateStore "tok-abc" 100 =
      .error .invalidOrExpiredState ∧
    validateCallbackState exStateStore "tok-never" 100 =
      .error .invalidOrExpiredState := by
  exact ⟨rfl, rfl, rfl⟩

/-- C9 (amended): a state token that is absent from the store at callback
time — whether it expired or was never issued — always fails authorization
with the one typed error `ValueError("Invalid or expired state token")`; the
code does not (and, over Redis TTL expiry, cannot) distinguish the two
cases. -/
theorem c9_invalid_state_single_error :
    ∀ (store : List StateEntry) (state : String) (now : Nat),
      redisGetState store state now = none →
      validateCallbackState store state now =
        .error .invalidOrExpiredState := by
  intro store state now h
  unfold validateCallbackState
  rw [h]

/-- C9 witness: the single error at a concrete missing token. -/
theorem c9_invalid_state_single_error_witness :
    validateCallbackState exStateStore "tok-gone" 10 =
      .error .invalidOrExpiredState := by
  exact c9_invalid_state_single_error exStateStore "tok-gone" 10 (by decide)

/-- C10: the analysis task enqueues the notification dispatch task exactly
when the run reached the save step (review not yet processed, message detail
fetched, analyzer returned a result) and the resulting sentiment is negative
or the resulting priority is critical; on every other path — including a
successful analysis with non-negative sentiment and non-critical priority —
the dispatcher is never invoked. -/
theorem c10_notification_iff_negative_or_critical :
    ∀ (review : ReviewState) (active : Bool) (plan : Plan)
      (fd : Except GmailError String) (ai : AiOutcome) (now : Nat)
      (rex : Bool),
      (analyzeReviewTask review active plan fd ai now rex).notificationEnqueued
          = true ↔
        (review.isProcessed = false ∧ (∃ body, fd = .ok body) ∧
          ∃ a, ai = .ok a ∧
            (a.sentiment = .negative ∨ a.priority = .critical)) := by
  intro review active plan fd ai now rex
  cases hproc : review.isProcessed with
  | true => simp [analyzeReviewTask, hproc]
  | false =>
      cases fd with
      | error e =>
          cases e <;> simp [analyzeReviewTask, hproc]
      | ok body =>
          cases ai with
          | configError m => simp [analyzeReviewTask, hproc]
          | exn m => cases rex <;> simp [analyzeReviewTask, hproc]
          | ok a => simp [analyzeReviewTask, hproc]

end EmailAgent
